import Mathlib

/-!
Shallow embedding of the daemon-supervisor GUI controller
(`maestral/gui/main.py`): the tray-icon application that locates or starts
the Maestral sync daemon, polls it every 500 ms, reconciles its status into
the tray UI, classifies daemon-reported errors into recovery actions, and
orchestrates shutdown and restart.

Side-effecting method bodies are embedded as pure functions that return the
ordered list of observable effects (`Effect`) the Python code would perform,
together with any updated cached state.  Remote daemon calls, Qt calls and
process launches are all represented as effects; the values the code reads
from the daemon (status string, error list, paused flag, ...) are passed in
as arguments of the poll functions.
-/

namespace Maestral

/-- Host platform as reported by Python `platform.system()`. -/
inductive Platform where
  | darwin
  | linux
  | other
deriving DecidableEq, Repr

/-- Reason constants of the relink dialog (`RelinkDialog.REVOKED` /
`RelinkDialog.EXPIRED`); the dialog itself is an external collaborator. -/
inductive RelinkReason where
  | revoked
  | expired
deriving DecidableEq, Repr

/-- Shell commands scheduled with `Popen(..., shell=True)` by `restart`.
Each constructor records the data the Python code formats into the command
string. -/
inductive PopenCmd where
  | bundleRelaunch (launch_command : String)
  | guiRelaunchDarwin (pid : Nat) (config_name : String)
  | guiRelaunchLinux (pid : Nat) (config_name : String)
deriving DecidableEq, Repr

/-- One observable side effect performed by a method of `MaestralGuiApp`:
a remote call on the daemon proxy `self.mdbx`, a Qt UI update, a process
launch or a process-exit step. -/
inductive Effect where
  | clearErrors
  | stopSync
  | startSync
  | setIcon (icon_name : String)
  | setPauseText (text : String)
  | disablePause
  | execDialog (title : String) (message : String) (exc_info : Option String)
  | execRelinkDialog (reason : RelinkReason)
  | popen (cmd : PopenCmd)
  | callQuit (stop_daemon : Option Bool)
  | stopTimer
  | pyroRelease
  | stopDaemonProcess (config_name : String)
  | deleteLater
  | appQuit
  | sysExit
  | startDaemonProcess (config_name : String)
  | startDaemonThread (config_name : String)
  | setSyncIssuesText (text : String)
  | setUsageText (text : String)
  | setStatusText (text : String)
  | reloadSyncIssues
  | setToolTip (text : String)
deriving DecidableEq, Repr

/-- Ambient process-level facts the Python module reads from its host:
`platform.system()`, the `IS_MACOS_BUNDLE` constant, the `MAESTRAL_CONFIG`
environment variable (= `CONFIG_NAME`), `os.getpid()` and `sys._MEIPASS`. -/
structure Env where
  platform : Platform
  is_macos_bundle : Bool
  config_name : String
  pid : Nat
  meipass : String
deriving DecidableEq, Repr

/-- A daemon-reported error dictionary as fetched by
`self.mdbx.get_maestral_errors()`: the fields `update_error` reads. -/
structure DaemonError where
  type : String
  title : String
  message : String
  traceback : String
deriving DecidableEq, Repr

/-- Sync-status string constant from `maestral.sync.constants`.  The
constants module is outside this file set; only the identity and pairwise
distinctness of the six values matter here, so each is modelled as its own
name. -/
def IDLE : String := "IDLE"

/-- Sync-status string constant from `maestral.sync.constants`. -/
def SYNCING : String := "SYNCING"

/-- Sync-status string constant from `maestral.sync.constants`. -/
def PAUSED : String := "PAUSED"

/-- Sync-status string constant from `maestral.sync.constants`. -/
def STOPPED : String := "STOPPED"

/-- Sync-status string constant from `maestral.sync.constants`. -/
def DISCONNECTED : String := "DISCONNECTED"

/-- Sync-status string constant from `maestral.sync.constants`. -/
def SYNC_ERROR : String := "SYNC_ERROR"

/-- Class attribute `MaestralGuiApp.PAUSE_TEXT`. -/
def PAUSE_TEXT : String := "Pause Syncing"

/-- Class attribute `MaestralGuiApp.RESUME_TEXT`. -/
def RESUME_TEXT : String := "Resume Syncing"

/-- Body of `MaestralGuiApp.quit(self, *args, stop_daemon=None)` as its
effect trace.  `stop_daemon = none` models calling `quit()` without the
keyword argument; `started` is `self._started`; `has_mdbx` is the truthiness
of `self.mdbx`. -/
def quit (env : Env) (stop_daemon : Option Bool) (started has_mdbx : Bool) :
    List Effect :=
  let sd := stop_daemon.getD started
  [Effect.stopTimer]
    ++ (if sd ∧ has_mdbx ∧ ¬env.is_macos_bundle then
          [Effect.pyroRelease, Effect.stopDaemonProcess env.config_name]
        else [])
    ++ [Effect.deleteLater, Effect.appQuit, Effect.sysExit]

/-- Body of `MaestralGuiApp.restart` as its effect trace: platform-dependent
`Popen` of a wait-then-relaunch shell command, then `self.quit(stop_daemon=True)`
(the call itself recorded as `Effect.callQuit (some true)` followed by the
trace of `quit`).  Note the source uses `if IS_MACOS_BUNDLE: ...` followed by
a separate `if Darwin / elif Linux` chain. -/
def restart (env : Env) (started has_mdbx : Bool) : List Effect :=
  (if env.is_macos_bundle then
      [Effect.popen (PopenCmd.bundleRelaunch (env.meipass ++ "/main"))]
    else [])
    ++ (if env.platform = Platform.darwin then
          [Effect.popen (PopenCmd.guiRelaunchDarwin env.pid env.config_name)]
        else if env.platform = Platform.linux then
          [Effect.popen (PopenCmd.guiRelaunchLinux env.pid env.config_name)]
        else [])
    ++ Effect.callQuit (some true) :: quit env (some true) started has_mdbx

/-- Body of `MaestralGuiApp._stop_and_exec_error_dialog(title, message, exc_info)`:
error icon, `stop_sync` if a proxy exists, relabel the pause action if it
exists, then a blocking `UserDialog`. -/
def stop_and_exec_error_dialog (has_mdbx has_pause_action : Bool)
    (title message : String) (exc_info : Option String) : List Effect :=
  [Effect.setIcon SYNC_ERROR]
    ++ (if has_mdbx then [Effect.stopSync] else [])
    ++ (if has_pause_action then [Effect.setPauseText "Start Syncing"] else [])
    ++ [Effect.execDialog title message exc_info]

/-- Body of `MaestralGuiApp._stop_and_exec_relink_dialog(reason)`: error
icon, `stop_sync` if a proxy exists, relabel and disable the pause action if
it exists, then a blocking `RelinkDialog`. -/
def stop_and_exec_relink_dialog (has_mdbx has_pause_action : Bool)
    (reason : RelinkReason) : List Effect :=
  [Effect.setIcon SYNC_ERROR]
    ++ (if has_mdbx then [Effect.stopSync] else [])
    ++ (if has_pause_action then
          [Effect.setPauseText "Start Syncing", Effect.disablePause]
        else [])
    ++ [Effect.execRelinkDialog reason]

/-- Dispatch of `update_error` on `err = errs[-1]`: the `if/elif/else` chain
over `err["type"]` (lines 377-399 of `main.py`). -/
def handle_last_error (env : Env) (has_mdbx has_pause_action started : Bool)
    (err : DaemonError) : List Effect :=
  if err.type = "RevFileError" ∨ err.type = "BadInputError" then
    stop_and_exec_error_dialog has_mdbx has_pause_action err.title err.message none
  else if err.type = "CursorResetError" then
    stop_and_exec_error_dialog has_mdbx has_pause_action
      "Dropbox has reset its sync state."
      "Please go to \"Rebuild index...\" to re-sync your Dropbox."
      none
  else if err.type = "DropboxDeletedError" then
    Effect.stopSync :: restart env started has_mdbx
  else if err.type = "DropboxAuthError" then
    stop_and_exec_relink_dialog has_mdbx has_pause_action RelinkReason.revoked
  else if err.type = "TokenExpiredError" then
    stop_and_exec_relink_dialog has_mdbx has_pause_action RelinkReason.expired
  else
    stop_and_exec_error_dialog has_mdbx has_pause_action
      "An unexpected error occurred."
      ("Please restart Maestral to continue syncing and contact "
        ++ "the developer with the information below.")
      (some err.traceback)
      ++ [Effect.startSync]

/-- Body of `MaestralGuiApp.update_error` as its effect trace, given the
batch `errs = self.mdbx.get_maestral_errors()`: return immediately when the
batch is empty, otherwise `clear_maestral_errors()` and dispatch on
`errs[-1]`. -/
def update_error (env : Env) (has_mdbx has_pause_action started : Bool)
    (errs : List DaemonError) : List Effect :=
  match errs.getLast? with
  | none => []
  | some err =>
      Effect.clearErrors :: handle_last_error env has_mdbx has_pause_action started err

/-- Outcome of `MaestralGuiApp._get_or_start_maestral_daemon`: the value
written to `self._started`, the observable launch/dialog/quit effects, and
the returned proxy (`some config_name` for `get_maestral_daemon_proxy(CONFIG_NAME)`;
`none` when the failure branch calls `self.quit()` and the process exits
before the `return`). -/
structure ResolveResult where
  started : Bool
  effects : List Effect
  proxy : Option String
deriving DecidableEq, Repr

/-- Body of `MaestralGuiApp._get_or_start_maestral_daemon`: look up a live
daemon pid for `CONFIG_NAME`; if found, record `_started = False`; otherwise
start a daemon thread (macOS bundle) or process and record `_started = True`,
and on a failed launch show a blocking dialog and `quit()`.  `launch_ok` is
the result `res` of the launch call; `has_mdbx` is the truthiness of
`self.mdbx` at the time (it is consulted by `quit` on the failure path). -/
def get_or_start_maestral_daemon (env : Env) (pid : Option Nat)
    (launch_ok has_mdbx : Bool) : ResolveResult :=
  match pid with
  | some _ => ⟨false, [], some env.config_name⟩
  | none =>
      let launch :=
        if env.is_macos_bundle then Effect.startDaemonThread env.config_name
        else Effect.startDaemonProcess env.config_name
      if launch_ok then
        ⟨true, [launch], some env.config_name⟩
      else
        ⟨true,
          [launch,
           Effect.execDialog "Could not start Maestral"
             ("Could not start or connect to sync daemon. Please try again and "
               ++ "contact the developer if this issue persists.")
             none,
           Effect.callQuit none]
            ++ quit env none true has_mdbx,
          none⟩

/-- Cached poll state of the reconciler: the attributes `self._status` and
`self._n_errors`, both initialised to `None` in `__init__`. -/
structure GuiState where
  status : Option String
  n_errors : Option Nat
deriving DecidableEq, Repr

/-- Body of `MaestralGuiApp.update_status` as cached-state transition plus
effect trace.  Inputs are the polled daemon values `self.mdbx.sync_errors`,
`self.mdbx.status`, `self.mdbx.paused`, the account-usage config string, and
the external text-eliding helper `elide_string` from `gui.utils`. -/
def update_status (st : GuiState) (sync_errors : List String) (status : String)
    (is_paused : Bool) (usage : String) (elide : String → String) :
    GuiState × List Effect :=
  let n_errors := sync_errors.length
  if some status = st.status ∧ some n_errors = st.n_errors then
    (st, [])
  else
    let new_icon := if is_paused then PAUSED else status
    let status_short := elide status
    (⟨some status, some n_errors⟩,
      [Effect.setIcon new_icon,
       Effect.setSyncIssuesText
         (if 0 < n_errors then
            "Show Sync Issues (" ++ toString n_errors ++ ")..."
          else "Show Sync Issues..."),
       Effect.setPauseText (if is_paused then RESUME_TEXT else PAUSE_TEXT),
       Effect.setUsageText usage,
       Effect.setStatusText status_short]
        ++ (if some n_errors ≠ st.n_errors then [Effect.reloadSyncIssues] else [])
        ++ [Effect.setToolTip status_short])

/-- An icon handle produced by `get_system_tray_icon(name, color=color)` from
`gui.resources`; rendering is an external collaborator, so a handle is
identified by the resource name and color passed to the loader. -/
structure TrayIconHandle where
  name : String
  color : Option String
deriving DecidableEq, Repr

/-- The loader call `get_system_tray_icon(name, color=color)`. -/
def get_system_tray_icon (name : String) (color : Option String) : TrayIconHandle :=
  ⟨name, color⟩

/-- The `icon_mapping` dict literal of `load_tray_icons`, in insertion
order. -/
def icon_mapping : List (String × String) :=
  [(IDLE, "idle"), (SYNCING, "syncing"), (PAUSED, "paused"), (STOPPED, "error"),
   (DISCONNECTED, "disconnected"), (SYNC_ERROR, "error")]

/-- Body of `MaestralGuiApp.load_tray_icons`: chooses `color = "light"` when
the context menu is visible on Darwin, then builds the key-to-icon dict over
`icon_mapping` (embedded as an association list in insertion order). -/
def load_tray_icons (context_menu_visible is_darwin : Bool) :
    List (String × TrayIconHandle) :=
  let color := if context_menu_visible ∧ is_darwin then some "light" else none
  icon_mapping.map fun kv => (kv.1, get_system_tray_icon kv.2 color)

/-- Body of `MaestralGuiApp.setIcon(icon_name)`:
`icon = self.icons.get(icon_name, self.icons[SYNCING])`, record
`self._current_icon = icon_name`, display `icon`.  Returns the displayed
handle and the recorded current-icon key; `none` models the `KeyError` the
eager default-argument lookup `self.icons[SYNCING]` would raise if `SYNCING`
were absent from the dict. -/
def setIcon (icons : List (String × TrayIconHandle)) (icon_name : String) :
    Option (TrayIconHandle × String) :=
  match icons.lookup SYNCING with
  | none => none
  | some fallback => some ((icons.lookup icon_name).getD fallback, icon_name)

/-- A concrete host environment (Linux, not a macOS bundle, default config
name) used to instantiate the generic theorems on closed inputs. -/
def env0 : Env := ⟨Platform.linux, false, "maestral", 100, "mp"⟩

/-- A concrete macOS-bundle host environment. -/
def envBundle : Env := ⟨Platform.darwin, true, "maestral", 100, "mp"⟩

lemma clearErrors_not_mem_quit (env : Env) (sd : Option Bool) (s m : Bool) :
    Effect.clearErrors ∉ quit env sd s m := by
  simp only [quit]
  split_ifs <;> simp

lemma clearErrors_not_mem_restart (env : Env) (s m : Bool) :
    Effect.clearErrors ∉ restart env s m := by
  simp only [restart]
  split_ifs <;>
    simp [clearErrors_not_mem_quit]

lemma clearErrors_not_mem_handle_last_error (env : Env) (m p s : Bool)
    (err : DaemonError) :
    Effect.clearErrors ∉ handle_last_error env m p s err := by
  simp only [handle_last_error]
  split_ifs <;>
    simp [stop_and_exec_error_dialog, stop_and_exec_relink_dialog,
      clearErrors_not_mem_restart]

/-- C1: if the fetched batch of daemon errors is empty, `update_error`
returns immediately with no side effects; if it is non-empty, the trace
starts by clearing the daemon-side error queue, and no later effect of the
call clears it again — the queue is cleared exactly once, before any
recovery action. -/
theorem C1_consume_once (env : Env) (m p s : Bool) (errs : List DaemonError) :
    (errs = [] → update_error env m p s errs = []) ∧
    (errs ≠ [] →
      update_error env m p s errs =
        Effect.clearErrors :: (update_error env m p s errs).tail ∧
      Effect.clearErrors ∉ (update_error env m p s errs).tail) := by
  constructor
  · intro h
    subst h
    rfl
  · intro h
    obtain ⟨last, hl⟩ := Option.isSome_iff_exists.mp (List.getLast?_isSome.mpr h)
    have hu : update_error env m p s errs =
        Effect.clearErrors :: handle_last_error env m p s last := by
      simp only [update_error, hl]
    rw [hu]
    exact ⟨rfl, clearErrors_not_mem_handle_last_error env m p s last⟩

/-- C1 witness: at the empty batch nothing happens, and at a concrete
singleton batch the trace is the clear step followed by a clear-free tail. -/
theorem C1_consume_once_witness :
    update_error env0 true true true [] = [] ∧
    (update_error env0 true true true [⟨"RevFileError", "t", "m", "tb"⟩] =
        Effect.clearErrors ::
          (update_error env0 true true true [⟨"RevFileError", "t", "m", "tb"⟩]).tail ∧
      Effect.clearErrors ∉
        (update_error env0 true true true [⟨"RevFileError", "t", "m", "tb"⟩]).tail) :=
  ⟨(C1_consume_once env0 true true true []).1 rfl,
   (C1_consume_once env0 true true true [⟨"RevFileError", "t", "m", "tb"⟩]).2
     (by decide)⟩

/-- C2: in a non-empty batch only the last error drives the recovery
action: dropping any earlier error from the batch leaves the trace
unchanged, and the whole trace is the clear step followed by the dispatch of
the batch's last error alone. -/
theorem C2_last_error_drives_action (env : Env) (m p s : Bool) :
    (∀ (e : DaemonError) (errs : List DaemonError), errs ≠ [] →
      update_error env m p s (e :: errs) = update_error env m p s errs) ∧
    (∀ (errs : List DaemonError) (last : DaemonError), errs.getLast? = some last →
      update_error env m p s errs =
        Effect.clearErrors :: handle_last_error env m p s last) := by
  constructor
  · intro e errs h
    match errs, h with
    | b :: l, _ =>
      simp only [update_error, List.getLast?_cons_cons]
  · intro errs last h
    simp only [update_error, h]

/-- C2 witness: for a concrete two-error batch, dropping the first error
changes nothing and the trace is the clear step followed by the dispatch of
the second (last) error. -/
theorem C2_last_error_drives_action_witness :
    update_error env0 true true true
        [⟨"CursorResetError", "t1", "m1", "b1"⟩,
         ⟨"DropboxDeletedError", "t2", "m2", "b2"⟩] =
      update_error env0 true true true [⟨"DropboxDeletedError", "t2", "m2", "b2"⟩] ∧
    update_error env0 true true true
        [⟨"CursorResetError", "t1", "m1", "b1"⟩,
         ⟨"DropboxDeletedError", "t2", "m2", "b2"⟩] =
      Effect.clearErrors ::
        handle_last_error env0 true true true
          ⟨"DropboxDeletedError", "t2", "m2", "b2"⟩ :=
  ⟨(C2_last_error_drives_action env0 true true true).1
      ⟨"CursorResetError", "t1", "m1", "b1"⟩
      [⟨"DropboxDeletedError", "t2", "m2", "b2"⟩] (by decide),
   (C2_last_error_drives_action env0 true true true).2
      [⟨"CursorResetError", "t1", "m1", "b1"⟩,
       ⟨"DropboxDeletedError", "t2", "m2", "b2"⟩]
      ⟨"DropboxDeletedError", "t2", "m2", "b2"⟩ (by decide)⟩

/-- C6: an error whose kind is outside the dispatch table produces exactly
the trace: clear queue, switch to the error icon, stop sync, relabel the
pause control, show the blocking dialog carrying the error's traceback, and
finally one `start_sync()` — in that order, once each. -/
theorem C6_unclassified_restarts_sync (env : Env) (s : Bool) (err : DaemonError)
    (h1 : err.type ≠ "RevFileError") (h2 : err.type ≠ "BadInputError")
    (h3 : err.type ≠ "CursorResetError") (h4 : err.type ≠ "DropboxDeletedError")
    (h5 : err.type ≠ "DropboxAuthError") (h6 : err.type ≠ "TokenExpiredError") :
    update_error env true true s [err] =
      [Effect.clearErrors, Effect.setIcon SYNC_ERROR, Effect.stopSync,
       Effect.setPauseText "Start Syncing",
       Effect.execDialog "An unexpected error occurred."
         ("Please restart Maestral to continue syncing and contact "
           ++ "the developer with the information below.")
         (some err.traceback),
       Effect.startSync] := by
  simp [update_error, handle_last_error, stop_and_exec_error_dialog,
    h1, h2, h3, h4, h5, h6]

/-- C6 witness: concrete unclassified error kind. -/
theorem C6_unclassified_restarts_sync_witness :
    update_error env0 true true true [⟨"KeyError", "t", "m", "tb"⟩] =
      [Effect.clearErrors, Effect.setIcon SYNC_ERROR, Effect.stopSync,
       Effect.setPauseText "Start Syncing",
       Effect.execDialog "An unexpected error occurred."
         ("Please restart Maestral to continue syncing and contact "
           ++ "the developer with the information below.")
         (some "tb"),
       Effect.startSync] :=
  C6_unclassified_restarts_sync env0 true ⟨"KeyError", "t", "m", "tb"⟩
    (by decide) (by decide) (by decide) (by decide) (by decide) (by decide)

/-- C5 counterexample: a `DropboxDeletedError` stops sync but its trace
contains neither the switch to the error icon nor the relabel of the
pause-resume control, refuting the claim that every stop-sync recovery
action performs both. -/
theorem C5_counterexample :
    Effect.stopSync ∈
        update_error env0 true true true [⟨"DropboxDeletedError", "t", "m", "tb"⟩] ∧
    Effect.setIcon SYNC_ERROR ∉
        update_error env0 true true true [⟨"DropboxDeletedError", "t", "m", "tb"⟩] ∧
    Effect.setPauseText "Start Syncing" ∉
        update_error env0 true true true [⟨"DropboxDeletedError", "t", "m", "tb"⟩] := by
  decide

/-- C5 (amended): every dispatch branch stops sync; the relink branches
switch to the error icon, relabel the pause control to "Start Syncing" and
disable it; the remaining dialog branches switch the icon and relabel but do
not disable; the `DropboxDeletedError` branch stops sync and restarts the
application without touching the icon or the control. -/
theorem C5_stop_sync_ui_effects (env : Env) (s : Bool) (err : DaemonError) :
    Effect.stopSync ∈ update_error env true true s [err] ∧
    (err.type = "DropboxAuthError" ∨ err.type = "TokenExpiredError" →
      Effect.setIcon SYNC_ERROR ∈ update_error env true true s [err] ∧
      Effect.setPauseText "Start Syncing" ∈ update_error env true true s [err] ∧
      Effect.disablePause ∈ update_error env true true s [err]) ∧
    (err.type = "DropboxDeletedError" →
      Effect.setIcon SYNC_ERROR ∉ update_error env true true s [err] ∧
      Effect.setPauseText "Start Syncing" ∉ update_error env true true s [err]) ∧
    (err.type ≠ "DropboxDeletedError" → err.type ≠ "DropboxAuthError" →
      err.type ≠ "TokenExpiredError" →
      Effect.setIcon SYNC_ERROR ∈ update_error env true true s [err] ∧
      Effect.setPauseText "Start Syncing" ∈ update_error env true true s [err] ∧
      Effect.disablePause ∉ update_error env true true s [err]) := by
  have hu : update_error env true true s [err] =
      Effect.clearErrors :: handle_last_error env true true s err := by
    simp [update_error]
  rw [hu]
  refine ⟨?_, ?_, ?_, ?_⟩
  · simp only [handle_last_error]
    split_ifs <;>
      simp [stop_and_exec_error_dialog, stop_and_exec_relink_dialog]
  · rintro (h | h) <;>
      simp [handle_last_error, h, stop_and_exec_relink_dialog]
  · intro h
    simp only [handle_last_error, h]
    norm_num
    refine ⟨⟨?_, ?_⟩, ?_, ?_⟩ <;>
      simp [restart, quit] <;> split_ifs <;> simp
  · intro hd ha ht
    simp only [handle_last_error]
    split_ifs with hrb hc <;> simp [stop_and_exec_error_dialog]

/-- C5 amended-claim witness: a relink-path error carries the full icon,
relabel and disable effects. -/
theorem C5_stop_sync_ui_effects_witness :
    Effect.setIcon SYNC_ERROR ∈
        update_error env0 true true true [⟨"DropboxAuthError", "t", "m", "tb"⟩] ∧
    Effect.setPauseText "Start Syncing" ∈
        update_error env0 true true true [⟨"DropboxAuthError", "t", "m", "tb"⟩] ∧
    Effect.disablePause ∈
        update_error env0 true true true [⟨"DropboxAuthError", "t", "m", "tb"⟩] :=
  (C5_stop_sync_ui_effects env0 true ⟨"DropboxAuthError", "t", "m", "tb"⟩).2.1
    (Or.inl rfl)

/-- C3 counterexample: on a macOS bundle with `self._started = True` and a
live proxy, `quit()` with no explicit flag does not stop the daemon process,
refuting the claim that the daemon is stopped if and only if `_started` was
true. -/
theorem C3_counterexample :
    Effect.stopDaemonProcess envBundle.config_name ∉
      quit envBundle none true true := by
  decide

/-- C3 (amended): `quit()` with no explicit flag resolves `stop_daemon` to
`self._started`, and the daemon process is stopped if and only if that flag
is true, a daemon proxy exists, and the app is not running as a macOS
bundle. -/
theorem C3_quit_default_stop (env : Env) (s m : Bool) :
    Effect.stopDaemonProcess env.config_name ∈ quit env none s m ↔
      (s = true ∧ m = true ∧ env.is_macos_bundle = false) := by
  simp only [quit, Option.getD_none]
  split_ifs with h
  · simp only [List.mem_append, List.mem_cons, List.mem_singleton]
    constructor
    · intro _
      obtain ⟨hs, hm, hb⟩ := h
      exact ⟨hs, hm, by simpa using hb⟩
    · intro _
      simp
  · simp only [List.append_nil, List.mem_append, List.mem_cons,
      List.mem_singleton, List.not_mem_nil]
    constructor
    · intro hmem
      rcases hmem with hmem | hmem <;> simp_all
    · intro hc
      exact absurd ⟨hc.1, hc.2.1, by simp [hc.2.2]⟩ h

/-- C9: every `restart` trace is some launch-scheduling prefix containing no
`quit` invocation, followed by the single call `quit(stop_daemon=True)` and
its full shutdown trace — independently of platform, bundle mode, `_started`
and the proxy. -/
theorem C9_restart_always_stops_daemon (env : Env) (s m : Bool) :
    ∃ pre, restart env s m =
        pre ++ Effect.callQuit (some true) :: quit env (some true) s m ∧
      ∀ sd, Effect.callQuit sd ∉ pre := by
  refine ⟨(if env.is_macos_bundle then
      [Effect.popen (PopenCmd.bundleRelaunch (env.meipass ++ "/main"))]
    else [])
    ++ (if env.platform = Platform.darwin then
          [Effect.popen (PopenCmd.guiRelaunchDarwin env.pid env.config_name)]
        else if env.platform = Platform.linux then
          [Effect.popen (PopenCmd.guiRelaunchLinux env.pid env.config_name)]
        else []), ?_, ?_⟩
  · simp [restart]
  · intro sd
    split_ifs <;> simp

/-- C4: a reconciliation tick that observes the same `(status, errorCount)`
pair as the cached pair returns with no effects at all and leaves the cached
state untouched. -/
theorem C4_no_redundant_reconciliation (st : GuiState) (sync_errors : List String)
    (status : String) (is_paused : Bool) (usage : String) (elide : String → String)
    (hs : some status = st.status) (hn : some sync_errors.length = st.n_errors) :
    update_status st sync_errors status is_paused usage elide = (st, []) := by
  simp only [update_status]
  rw [if_pos ⟨hs, hn⟩]

/-- C4 witness: a tick re-observing the cached pair is a no-op on a concrete
state. -/
theorem C4_no_redundant_reconciliation_witness :
    update_status ⟨some "x", some 0⟩ [] "x" false "u" id =
      (⟨some "x", some 0⟩, []) :=
  C4_no_redundant_reconciliation ⟨some "x", some 0⟩ [] "x" false "u" id rfl rfl

/-- C8: on a tick where the `(status, errorCount)` pair changed, the first
effect sets the icon key to `PAUSED` when the polled paused flag is true and
to the polled status otherwise; the sync-issues window is reloaded exactly
when the error count differs from its cached value; and the cached pair is
updated to the polled pair. -/
theorem C8_changed_tick_icon_and_reload (st : GuiState) (sync_errors : List String)
    (status : String) (is_paused : Bool) (usage : String) (elide : String → String)
    (h : ¬(some status = st.status ∧ some sync_errors.length = st.n_errors)) :
    (update_status st sync_errors status is_paused usage elide).2.head? =
      some (Effect.setIcon (if is_paused then PAUSED else status)) ∧
    (Effect.reloadSyncIssues ∈
        (update_status st sync_errors status is_paused usage elide).2 ↔
      some sync_errors.length ≠ st.n_errors) ∧
    (update_status st sync_errors status is_paused usage elide).1 =
      ⟨some status, some sync_errors.length⟩ := by
  simp only [update_status]
  rw [if_neg h]
  refine ⟨rfl, ?_, rfl⟩
  by_cases hn : some sync_errors.length = st.n_errors <;> simp [hn]

/-- C8 witness: from the initial cache `(None, None)`, a poll of
`(IDLE, 0 errors, not paused)` sets the `IDLE` icon, reloads the issue
window, and caches the polled pair. -/
theorem C8_changed_tick_icon_and_reload_witness :
    (update_status ⟨none, none⟩ [] IDLE false "u" id).2.head? =
      some (Effect.setIcon (if false then PAUSED else IDLE)) ∧
    (Effect.reloadSyncIssues ∈ (update_status ⟨none, none⟩ [] IDLE false "u" id).2 ↔
      some ([] : List String).length ≠ (none : Option Nat)) ∧
    (update_status ⟨none, none⟩ [] IDLE false "u" id).1 = ⟨some IDLE, some 0⟩ :=
  C8_changed_tick_icon_and_reload ⟨none, none⟩ [] IDLE false "u" id (by decide)

/-- C7: the resolver records `_started = False` and performs no launch when
a live daemon pid for the configuration is found, and launches exactly one
daemon (thread on a macOS bundle, process otherwise) and records
`_started = True` when none is found and the launch succeeds; in both cases
it returns the proxy for the configuration identity. -/
theorem C7_resolver_started_flag (env : Env) (pid : Option Nat) (launch_ok m : Bool) :
    (pid.isSome = true →
      get_or_start_maestral_daemon env pid launch_ok m =
        ⟨false, [], some env.config_name⟩) ∧
    (pid = none → launch_ok = true →
      get_or_start_maestral_daemon env pid launch_ok m =
        ⟨true,
         [if env.is_macos_bundle then Effect.startDaemonThread env.config_name
          else Effect.startDaemonProcess env.config_name],
         some env.config_name⟩) := by
  constructor
  · intro h
    match pid, h with
    | some _, _ => rfl
  · rintro rfl rfl
    simp [get_or_start_maestral_daemon]

/-- C7 witness: with a live pid the resolver connects without launching; with
no pid and a successful launch it starts one daemon process and connects. -/
theorem C7_resolver_started_flag_witness :
    get_or_start_maestral_daemon env0 (some 7) true true =
      ⟨false, [], some "maestral"⟩ ∧
    get_or_start_maestral_daemon env0 none true true =
      ⟨true, [Effect.startDaemonProcess "maestral"], some "maestral"⟩ :=
  ⟨(C7_resolver_started_flag env0 (some 7) true true).1 rfl,
   (C7_resolver_started_flag env0 none true true).2 rfl rfl⟩

/-- C10: for an icon key absent from the loaded icon map, `setIcon` does not
fail: it displays the `SYNCING` icon as fallback while recording the
requested key as the current icon key. -/
theorem C10_setIcon_unknown_key_fallback (cmv d : Bool) (key : String)
    (h : (load_tray_icons cmv d).lookup key = none) :
    setIcon (load_tray_icons cmv d) key =
      some (get_system_tray_icon "syncing" (if cmv ∧ d then some "light" else none),
        key) := by
  have hsync : (load_tray_icons cmv d).lookup SYNCING =
      some (get_system_tray_icon "syncing"
        (if cmv ∧ d then some "light" else none)) := by
    cases cmv <;> cases d <;> decide
  simp only [setIcon, hsync, h, Option.getD_none]

/-- C10 witness: the unknown key "bogus" displays the syncing icon and is
recorded as the current icon key. -/
theorem C10_setIcon_unknown_key_fallback_witness :
    setIcon (load_tray_icons false false) "bogus" =
      some (get_system_tray_icon "syncing" none, "bogus") :=
  C10_setIcon_unknown_key_fallback false false "bogus" (by decide)

end Maestral
